import Mathlib

/-!
Shallow embedding of the remote-debugging session manager in `src/server.js`
(target discovery, RPC transport calls, execution-context registry, the
change-detection polling loop, status reporting and instance switching),
together with theorems settling the specification claims about it.

JavaScript conventions are modelled explicitly:
* an optional / possibly-`undefined` string field is `Option String`;
* JS truthiness of such a field (`undefined`, `null` and `""` are falsy)
  is `truthyStr`;
* 32-bit integer coercion (`x & x`, `x << 5`) is `toInt32`;
* asynchronous results that the code awaits (HTTP probe responses, the
  outcome of `connectCDP`, the capture probe's outcome) are passed to the
  embedded functions as explicit inputs, so that every function is total
  and the value of each probe is fixed independently of completion order.
-/

namespace AgentG

/-- JS truthiness of an optional string: `undefined` and `""` are falsy. -/
def truthyStr : Option String → Bool
  | none => false
  | some s => s ≠ ""

/-- Whether `needle` occurs as a contiguous sublist of `hay`. -/
def containsSub (needle : List Char) : List Char → Bool
  | [] => needle.isEmpty
  | c :: rest => needle.isPrefixOf (c :: rest) || containsSub needle rest

/-- JS `hay.includes(needle)` substring test. -/
def jsIncludes (hay needle : String) : Bool :=
  containsSub needle.toList hay.toList

/-- `const PORTS = [9000, 9001, 9222, 9002, 9003]` — fixed priority order. -/
def PORTS : List Nat := [9000, 9001, 9222, 9002, 9003]

/-- One entry of the JSON array served by `http://127.0.0.1:PORT/json/list`.
Fields the code never reads are omitted. -/
structure RawTarget where
  url : Option String
  title : Option String
  type : Option String
  webSocketDebuggerUrl : Option String
  id : String
deriving DecidableEq

/-- The page filter shared by `discoverCDP` and `discoverAllTargets`:
`(t.url?.includes('workbench.html') || (t.title && t.title.includes('Antigravity'))) && t.type !== 'worker'`. -/
def isAntigravityPage (t : RawTarget) : Bool :=
  ((match t.url with | some u => jsIncludes u "workbench.html" | none => false)
    || (match t.title with
        | some ti => ti ≠ "" && jsIncludes ti "Antigravity"
        | none => false))
  && !(t.type == some "worker")

/-- Candidate returned by `discoverCDP`'s per-port `checkPort` closure. -/
structure Candidate where
  port : Nat
  url : String
  title : Option String
  id : String
deriving DecidableEq

/-- The value `discoverCDP` resolves with (`title` is dropped). -/
structure CDPInfo where
  port : Nat
  url : String
  id : String
deriving DecidableEq

/-- `discoverCDP`'s `checkPort(port)`: `fetched` is the outcome of
`getJson` for that port (`none` models a network error, timeout or JSON
parse failure, all caught by the surrounding `try`). The code takes the
FIRST matching page of the list and yields it only when that page also
carries a truthy `webSocketDebuggerUrl`; it does not keep searching
otherwise. -/
def checkPortOne (fetched : Option (List RawTarget)) (port : Nat) : Option Candidate :=
  match fetched with
  | none => none
  | some list =>
      match list.find? isAntigravityPage with
      | some found =>
          if truthyStr found.webSocketDebuggerUrl then
            some { port := port, url := found.webSocketDebuggerUrl.getD "",
                   title := found.title, id := found.id }
          else none
      | none => none

/-- The error message thrown when no endpoint yields a match. -/
def noTargetFoundMsg : String :=
  "CDP not found. Ensure Antigravity is running with remote debugging enabled."

/-- `discoverCDP()`: `Promise.all(PORTS.map(checkPort))` keeps the results
in `PORTS` index order regardless of completion order, then
`results.find(r => r !== null)` picks the first non-null in that order.
`fetch` gives each port's probe outcome. -/
def discoverCDP (fetch : Nat → Option (List RawTarget)) : Except String CDPInfo :=
  let results := PORTS.map (fun p => checkPortOne (fetch p) p)
  match results.findSome? (fun x => x) with
  | some m => .ok { port := m.port, url := m.url, id := m.id }
  | none => .error noTargetFoundMsg

/-- `Promise.all` result-slot filling: probes finish in `arrival` order
(a list of indices into `PORTS`), and each finished probe stores its
result at its own priority index. Slots whose probe never finished hold
`none`. -/
def fillSlots (outcomes : Nat → Option Candidate) : List Nat → Nat → Option Candidate
  | [], _ => none
  | i :: rest, j => if j = i then outcomes i else fillSlots outcomes rest j

/-- `discoverCDP` re-expressed over an explicit completion order: the
result array is assembled from the probes in `arrival` order, then the
first non-null slot in priority order is selected. -/
def discoverCDPArrival (fetch : Nat → Option (List RawTarget)) (arrival : List Nat) :
    Except String CDPInfo :=
  let outcomes : Nat → Option Candidate :=
    fun i => checkPortOne (fetch (PORTS.getD i 0)) (PORTS.getD i 0)
  let results := (List.range PORTS.length).map (fillSlots outcomes arrival)
  match results.findSome? (fun x => x) with
  | some m => .ok { port := m.port, url := m.url, id := m.id }
  | none => .error noTargetFoundMsg

/-- One instance record produced by `discoverAllTargets`. -/
structure InstanceInfo where
  id : String
  port : Nat
  url : String
  title : String
  pageUrl : Option String
deriving DecidableEq

/-- `t.title || ` Target + id.substring(0, 8) — JS `||` falls through on
`undefined` and on the empty string. -/
def instTitle (t : RawTarget) : String :=
  match t.title with
  | some s => if s = "" then "Target " ++ t.id.take 8 else s
  | none => "Target " ++ t.id.take 8

/-- `discoverAllTargets`'s `checkPort(port)`: filter the port's list to
matching pages that carry a debugger URL, and annotate each with the port
it was found on. A failed fetch contributes the empty list. -/
def checkPortAll (fetched : Option (List RawTarget)) (port : Nat) : List InstanceInfo :=
  match fetched with
  | none => []
  | some list =>
      (list.filter (fun t => isAntigravityPage t && truthyStr t.webSocketDebuggerUrl)).map
        (fun t => { id := t.id, port := port, url := t.webSocketDebuggerUrl.getD "",
                    title := instTitle t, pageUrl := t.url })

/-- The `seen`-set loop of `discoverAllTargets`: keep the first occurrence
of each `webSocketDebuggerUrl`, in iteration order (`seen` is the set of
urls already kept). -/
def dedupeByUrlAux : List InstanceInfo → List String → List InstanceInfo
  | [], _ => []
  | t :: rest, seen =>
      if seen.contains t.url then dedupeByUrlAux rest seen
      else t :: dedupeByUrlAux rest (t.url :: seen)

/-- `discoverAllTargets()`: probe every port (concurrently, joined by
`Promise.all` in `PORTS` order), concatenate the per-port results in
priority order and de-duplicate by `webSocketDebuggerUrl`. -/
def discoverAllTargets (fetch : Nat → Option (List RawTarget)) : List InstanceInfo :=
  dedupeByUrlAux ((PORTS.map (fun p => checkPortAll (fetch p) p)).flatten) []

/-- One execution context as tracked by `connectCDP`'s message handler
(`data.params.context` — the handler only ever inspects `id`; `name` and
`origin` stand for the rest of the record). -/
structure ExecutionContext where
  id : Int
  name : String
  origin : String
deriving DecidableEq

/-- Protocol events dispatched on `data.method` by the `ws.on('message')`
handler of `connectCDP`. `other` covers every message whose method is not
one of the three context events (including call responses and
unrecognized event types, which the handler leaves the registry
untouched for). -/
inductive CDPEvent where
  | contextCreated (ctx : ExecutionContext)
  | contextDestroyed (id : Int)
  | contextsCleared
  | other (method : String)
deriving DecidableEq

/-- The registry update performed by `connectCDP`'s message handler:
created pushes unless an entry with the same id exists, destroyed filters
out the matching id, cleared resets to the empty list, anything else is
ignored. -/
def applyContextEvent (contexts : List ExecutionContext) : CDPEvent → List ExecutionContext
  | .contextCreated ctx =>
      match contexts.find? (fun c => c.id == ctx.id) with
      | some _ => contexts
      | none => contexts ++ [ctx]
  | .contextDestroyed i => contexts.filter (fun c => !(c.id == i))
  | .contextsCleared => []
  | .other _ => contexts

/-- Replay of a whole event stream against the registry, which starts
out as `let contexts = []`. -/
def replayContextEvents (events : List CDPEvent) : List ExecutionContext :=
  events.foldl applyContextEvent []

/-- Modelled from the spec's three rules (§3 of the specification), as a
fold over sets: a cleared event empties the set unconditionally, a
destroyed event removes exactly the matching id, a created event adds the
context unless one with the same id is already present, and any other
event leaves the set unchanged. Used to compare the implementation's
registry against the spec's set semantics. -/
def specApplyRule (s : Finset ExecutionContext) : CDPEvent → Finset ExecutionContext
  | .contextCreated ctx =>
      if ∃ c ∈ s, c.id = ctx.id then s else insert ctx s
  | .contextDestroyed i => s.filter (fun c => c.id ≠ i)
  | .contextsCleared => ∅
  | .other _ => s

/-- Spec-side replay of an event stream, starting from the empty set. -/
def specReplayEvents (events : List CDPEvent) : Finset ExecutionContext :=
  events.foldl specApplyRule ∅

/-- JS `ToInt32`: reduce an integer to the signed 32-bit range. This is
what `hash & hash` (and the implicit coercion of `<<`) performs in
`hashString`. -/
def toInt32 (n : Int) : Int :=
  let m := n % 4294967296
  if m < 2147483648 then m else m - 4294967296

/-- One loop iteration of `hashString`:
`hash = ((hash << 5) - hash) + char; hash = hash & hash`. `hash << 5`
coerces to 32 bits before shifting, and the final `& hash` coerces the
(exact, since it is far below 2^53) float result back to 32 bits. -/
def hashStep (h : Int) (c : Int) : Int :=
  toInt32 (toInt32 (h * 32) - h + c)

/-- `hashString(str)`: fold `hashStep` over the character codes, starting
from 0. The JS function formats the resulting 32-bit integer with
`toString(36)`, which is injective on integers, so fingerprints are
compared here at the integer stage. (JS iterates UTF-16 code units; for
the basic multilingual plane these coincide with the `Char.toNat` codes
used here.) -/
def hashString (s : String) : Int :=
  s.toList.foldl (fun h ch => hashStep h (Int.ofNat ch.toNat)) 0

/-- Opaque JSON payload (a `result` value, an `error` object, call
`params`) carried on the wire; its structure is irrelevant to the
transport. -/
abbrev RpcPayload := String

/-- The fields of an incoming WebSocket message that `connectCDP.call`'s
per-call handler reads: `data.id` (absent on event messages), `data.error`
(`none` models both an absent and a falsy error field, since the handler
tests `if (data.error)`), and `data.result` (possibly absent). -/
structure WsIncoming where
  id : Option Int
  error : Option RpcPayload
  result : Option RpcPayload
deriving DecidableEq

/-- How a call's promise settled. -/
inductive CallOutcome where
  | success (r : Option RpcPayload)
  | rpcError (e : RpcPayload)
  | timedOut (method : String)
deriving DecidableEq

/-- The state of one in-flight `call(method, params, timeout)`:
whether its per-call message handler is still registered
(`ws.on('message', handler)` until `ws.off`), whether its timeout is
still armed (`setTimeout` until it fires or `clearTimeout` runs), and
how, if at all, its promise has settled. -/
structure PendingCall where
  callId : Int
  method : String
  handlerOn : Bool
  timerOn : Bool
  settled : Option CallOutcome
deriving DecidableEq

/-- Events a pending call can observe: an incoming WebSocket message, or
its timeout firing. -/
inductive CallEvent where
  | message (m : WsIncoming)
  | timerFires
deriving DecidableEq

/-- Promise semantics: a second resolve/reject is a no-op. -/
def settlePromise (p : PendingCall) (o : CallOutcome) : PendingCall :=
  match p.settled with
  | some _ => p
  | none => { p with settled := some o }

/-- One step of a pending call. A message settles the call only while the
handler is registered and carries the matching id; it then clears the
timeout, unregisters the handler, and rejects with the error payload when
`data.error` is truthy, otherwise resolves with `data.result`. The timer,
when still armed, unregisters the handler and rejects with the timeout
error. -/
def callStep (p : PendingCall) : CallEvent → PendingCall
  | .message m =>
      if p.handlerOn && m.id == some p.callId then
        let p1 := { p with timerOn := false, handlerOn := false }
        match m.error with
        | some e => settlePromise p1 (.rpcError e)
        | none => settlePromise p1 (.success m.result)
      else p
  | .timerFires =>
      if p.timerOn then
        settlePromise { p with timerOn := false, handlerOn := false } (.timedOut p.method)
      else p

/-- A freshly issued call: handler registered, timeout armed, unsettled. -/
def initCall (id : Int) (method : String) : PendingCall :=
  { callId := id, method := method, handlerOn := true, timerOn := true, settled := none }

/-- Run a pending call against a sequence of observed events. -/
def runCall (p : PendingCall) (events : List CallEvent) : PendingCall :=
  events.foldl callStep p

/-- The payload assembled by the capture script. A successful capture has
`error = none` (the polling loop tests `snapshot.error` for truthiness,
so `some ""` also counts as a non-error); an error payload carries a
nonempty message. -/
structure Snapshot where
  error : Option String
  html : String
  css : String
  backgroundColor : String
  color : String
  fontFamily : String
deriving DecidableEq

/-- The value `connectCDP` resolves with, as far as the rest of the
server observes it: the live context registry behind `getContexts()`.
(The `ws` and `call` members are modelled by the transport machinery
above.) -/
structure Session where
  contexts : List ExecutionContext
deriving DecidableEq

/-- Outcome of `await captureSnapshot(cdpConnection)` on one tick: the
function returned a value (`none` models `null`), or it threw and the
poll loop's `catch` receives an error whose `message` is `msg`. -/
inductive CaptureOutcome where
  | returns (s : Option Snapshot)
  | throws (msg : String)
deriving DecidableEq

/-- The capture outcomes the polling loop absorbs as counted failures: a
null return, or a returned payload whose `error` field is truthy. (A
thrown error is handled by the `catch` clause instead.) -/
def isAbsorbedFailure : CaptureOutcome → Bool
  | .returns none => true
  | .returns (some s) => truthyStr s.error
  | .throws _ => false

/-- The message broadcast to every open client on a change:
`{type: 'snapshot_update', timestamp}`. The timestamp is wall-clock
noise and carries no snapshot data; only the `type` tag is modelled. -/
structure BroadcastMsg where
  type : String
deriving DecidableEq

/-- Externally visible effects of one polling tick. -/
structure TickLog where
  reconnectAttempted : Bool
  broadcast : Option BroadcastMsg
  toreDown : Bool
deriving DecidableEq

/-- `MAX_SNAPSHOT_FAILS = 5`. -/
def MAX_SNAPSHOT_FAILS : Nat := 5

/-- `MAX_CDP_RETRIES = 60`. -/
def MAX_CDP_RETRIES : Nat := 60

/-- What a successful `initCDP()` installs: the new connection, the id of
the discovered target and the pre-discovered instance list. -/
structure ReconnectResult where
  session : Session
  targetId : Option String
  instances : List InstanceInfo
deriving DecidableEq

/-- The module-level mutable state of `server.js` that the session
manager reads and writes. -/
structure ServerState where
  cdpConnection : Option Session
  lastSnapshot : Option Snapshot
  lastSnapshotHash : Option Int
  snapshotFailCount : Nat
  cdpRetryCount : Nat
  discoveredInstances : List InstanceInfo
  activeTargetId : Option String
deriving DecidableEq

/-- A tick log with no externally visible effect. -/
def quietLog : TickLog :=
  { reconnectAttempted := false, broadcast := none, toreDown := false }

/-- One tick of the `setInterval` body of `startPolling`, parametrized by
the failure threshold (`MAX_SNAPSHOT_FAILS` in the code). `reconnect` is
the outcome of `await initCDP()` if the tick takes the no-connection
branch (`initCDP` retries internally: on success it installs the
connection and resets both counters; on giving up the retry counter has
reached its maximum). `cap` is the outcome of
`await captureSnapshot(cdpConnection)` if the tick takes the connected
branch. A null or truthy-error snapshot increments the failure counter;
a success resets it, fingerprints `snapshot.html` and broadcasts a
`snapshot_update` notification when the fingerprint changed; reaching
the threshold drops the connection and resets the counter. A thrown
error increments the counter without the threshold check, and drops the
connection at once when its message mentions `WebSocket` or `close`. -/
def pollTickWith (maxFails : Nat) (st : ServerState) (reconnect : Option ReconnectResult)
    (cap : CaptureOutcome) : ServerState × TickLog :=
  match st.cdpConnection with
  | none =>
      match reconnect with
      | some r =>
          ({ st with cdpConnection := some r.session, activeTargetId := r.targetId,
                     discoveredInstances := r.instances,
                     cdpRetryCount := 0, snapshotFailCount := 0 },
           { quietLog with reconnectAttempted := true })
      | none =>
          ({ st with cdpRetryCount := MAX_CDP_RETRIES },
           { quietLog with reconnectAttempted := true })
  | some _ =>
      match cap with
      | .throws msg =>
          let st1 := { st with snapshotFailCount := st.snapshotFailCount + 1 }
          let st2 := if jsIncludes msg "WebSocket" || jsIncludes msg "close"
                     then { st1 with cdpConnection := none } else st1
          (st2, quietLog)
      | .returns r =>
          let step : ServerState × TickLog :=
            match r with
            | none => ({ st with snapshotFailCount := st.snapshotFailCount + 1 }, quietLog)
            | some snap =>
                if truthyStr snap.error then
                  ({ st with snapshotFailCount := st.snapshotFailCount + 1 }, quietLog)
                else
                  let h := hashString snap.html
                  if st.lastSnapshotHash = some h then
                    ({ st with snapshotFailCount := 0 }, quietLog)
                  else
                    ({ st with snapshotFailCount := 0,
                               lastSnapshot := some snap, lastSnapshotHash := some h },
                     { quietLog with broadcast := some { type := "snapshot_update" } })
          let stMid := step.1
          if stMid.snapshotFailCount ≥ maxFails then
            ({ stMid with cdpConnection := none, snapshotFailCount := 0 },
             { step.2 with toreDown := true })
          else (stMid, step.2)

/-- One polling tick at the code's threshold. -/
def pollTick (st : ServerState) (reconnect : Option ReconnectResult)
    (cap : CaptureOutcome) : ServerState × TickLog :=
  pollTickWith MAX_SNAPSHOT_FAILS st reconnect cap

/-- Run a sequence of polling ticks, collecting each tick's log. -/
def runTicksWith (maxFails : Nat) :
    ServerState → List (Option ReconnectResult × CaptureOutcome) → ServerState × List TickLog
  | st, [] => (st, [])
  | st, (rc, cap) :: rest =>
      let step := pollTickWith maxFails st rc cap
      let tail := runTicksWith maxFails step.1 rest
      (tail.1, step.2 :: tail.2)

/-- The record `getCDPStatus()` returns. -/
structure CDPStatus where
  connected : Bool
  contextCount : Nat
  retryCount : Nat
deriving DecidableEq

/-- `getCDPStatus()`: total in every state. `!!cdpConnection` is
`Option.isSome`; `cdpConnection?.getContexts().length || 0` collapses
both the absent-connection case and a zero-length context list to `0`,
which is the length itself whenever a connection exists. -/
def getCDPStatus (st : ServerState) : CDPStatus :=
  { connected := st.cdpConnection.isSome
  , contextCount := match st.cdpConnection with
      | some c => c.contexts.length
      | none => 0
  , retryCount := st.cdpRetryCount }

/-- The HTTP responses of the `POST /instance` handler. -/
inductive SwitchResponse where
  | badRequest
  | notFound
  | ok (activeTargetId : String) (title : String)
  | serverError (msg : String)
deriving DecidableEq

/-- Transport-level actions the switch handler performs, in order. -/
inductive SwitchAction where
  | closeTransport
  | openTransport
deriving DecidableEq

/-- The instance list the switch handler resolves the target against:
the cached `discoveredInstances`, re-discovered when the cache is empty. -/
def effectiveInstances (st : ServerState) (rediscover : List InstanceInfo) :
    List InstanceInfo :=
  if st.discoveredInstances.isEmpty then rediscover else st.discoveredInstances

/-- The `POST /instance` handler (`switchTo`). `targetId` is the request
body field (the empty string models a missing/falsy one), `rediscover`
the outcome of `discoverAllTargets()` should the cache be empty, and
`connectResult` the outcome of `await connectCDP(target.url)`. The
handler 400s without a target id and 404s when the id is unknown;
otherwise it closes the existing transport if one is present (inside
`try { } catch`, so an absent or already-closed transport never
throws), clears the connection, the stored payload and its fingerprint,
then connects to the new target; on success it installs the new session
and resets both the capture-failure and the retry counter; a connect
failure is caught and reported as a 500, leaving the state
disconnected. -/
def switchInstance (st : ServerState) (targetId : String)
    (rediscover : List InstanceInfo) (connectResult : Except String Session) :
    ServerState × SwitchResponse × List SwitchAction :=
  if targetId = "" then (st, .badRequest, [])
  else
    let instances := effectiveInstances st rediscover
    let st0 := { st with discoveredInstances := instances }
    match instances.find? (fun i => i.id == targetId) with
    | none => (st0, .notFound, [])
    | some target =>
        let closeActs := if st0.cdpConnection.isSome then [SwitchAction.closeTransport] else []
        let st1 := { st0 with cdpConnection := none, lastSnapshot := none,
                              lastSnapshotHash := none }
        match connectResult with
        | .ok sess =>
            ({ st1 with cdpConnection := some sess, activeTargetId := some target.id,
                        snapshotFailCount := 0, cdpRetryCount := 0 },
             .ok target.id target.title, closeActs ++ [.openTransport])
        | .error e =>
            (st1, .serverError e, closeActs ++ [.openTransport])

/-! Concrete fixtures used to evaluate the definitions on explicit
inputs (discovery scenario A, the duplicated-id discovery input, polling
scenarios B and C, and an instance switch). -/

/-- A matching page served only by the third-priority port in scenario A. -/
def targetA : RawTarget :=
  { url := some "vscode-file://vscode-app/workbench.html", title := some "Antigravity"
  , type := some "page", webSocketDebuggerUrl := some "ws://127.0.0.1:9222/devtools/page/ABC"
  , id := "ABC" }

/-- Probe outcomes for scenario A: only port 9222 answers with a match. -/
def fetchA : Nat → Option (List RawTarget) :=
  fun p => if p = 9222 then some [targetA] else none

/-- A matching page with target id `X` exposed on port 9000. -/
def targetX0 : RawTarget :=
  { url := some "workbench.html", title := none, type := some "page"
  , webSocketDebuggerUrl := some "ws://127.0.0.1:9000/devtools/page/X", id := "X" }

/-- The same target id `X` exposed on port 9001, under that port's URL. -/
def targetX1 : RawTarget :=
  { url := some "workbench.html", title := none, type := some "page"
  , webSocketDebuggerUrl := some "ws://127.0.0.1:9001/devtools/page/X", id := "X" }

/-- Probe outcomes where two ports each expose a target with id `X`. -/
def fetchDup : Nat → Option (List RawTarget) :=
  fun p => if p = 9000 then some [targetX0] else if p = 9001 then some [targetX1] else none

/-- A session with one execution context. -/
def sessionW : Session := { contexts := [⟨1, "main", "file://app"⟩] }

/-- The error payload of scenario C: the probe returns `{error: "x"}`. -/
def errSnapshotX : Snapshot :=
  { error := some "x", html := "", css := "", backgroundColor := ""
  , color := "", fontFamily := "" }

/-- A successful capture payload. -/
def okSnapshotW : Snapshot :=
  { error := none, html := "<div>hello</div>", css := "a", backgroundColor := "b"
  , color := "c", fontFamily := "d" }

/-- A capture payload with the same `html` but different styling fields. -/
def okSnapshotW2 : Snapshot :=
  { error := none, html := "<div>hello</div>", css := "OTHER", backgroundColor := "b2"
  , color := "c2", fontFamily := "d2" }

/-- A connected server state with clean counters. -/
def stConnW : ServerState :=
  { cdpConnection := some sessionW, lastSnapshot := none, lastSnapshotHash := none
  , snapshotFailCount := 0, cdpRetryCount := 0, discoveredInstances := []
  , activeTargetId := none }

/-- A disconnected server state with a nonzero retry counter. -/
def stDiscW : ServerState :=
  { cdpConnection := none, lastSnapshot := none, lastSnapshotHash := none
  , snapshotFailCount := 0, cdpRetryCount := 7, discoveredInstances := []
  , activeTargetId := none }

/-- Instance B of switch scenario D. -/
def instB : InstanceInfo :=
  { id := "B", port := 9001, url := "ws://127.0.0.1:9001/devtools/page/B"
  , title := "Antigravity B", pageUrl := some "workbench.html" }

/-- The session obtained by connecting to instance B. -/
def sessB : Session := { contexts := [⟨7, "b", "o"⟩, ⟨8, "b2", "o2"⟩] }

/-- A state connected to session A, with stale payload and counters, in
which instance B is switched to. -/
def stSwitchW : ServerState :=
  { cdpConnection := some sessionW, lastSnapshot := some okSnapshotW
  , lastSnapshotHash := some 42, snapshotFailCount := 3, cdpRetryCount := 9
  , discoveredInstances := [instB], activeTargetId := some "A" }

end AgentG

namespace AgentG

/-- C9: in every state, `getCDPStatus` returns a well-formed
`{connected, contextCount, retryCount}` record (the function is total, so
it can never throw); when no session is active it reports
`connected := false` with `contextCount := 0` instead of propagating any
underlying failure, and when a session is active `contextCount` is that
session's context count. -/
theorem status_query_total_wellformed :
    ∀ st : ServerState,
      (getCDPStatus st).connected = st.cdpConnection.isSome ∧
      (getCDPStatus st).retryCount = st.cdpRetryCount ∧
      (st.cdpConnection = none →
        getCDPStatus st =
          { connected := false, contextCount := 0, retryCount := st.cdpRetryCount }) ∧
      (∀ s, st.cdpConnection = some s →
        (getCDPStatus st).contextCount = s.contexts.length) := by
  intro st
  refine ⟨rfl, rfl, ?_, ?_⟩
  · intro h
    simp [getCDPStatus, h]
  · intro s h
    simp [getCDPStatus, h]

/-- Witness: the status of a concrete disconnected state. -/
theorem status_query_total_wellformed_witness :
    getCDPStatus stDiscW = { connected := false, contextCount := 0, retryCount := 7 } :=
  (status_query_total_wellformed stDiscW).2.2.1 rfl

/-- C7: on a tick whose capture probe throws with a transport-level
disconnection (an error message mentioning `WebSocket` or `close`), the
connection is dropped on that same tick — for every state, in particular
regardless of how far the failure counter is from its threshold — the
tick itself is not the threshold-teardown path, and the very next tick
takes the reconnect branch. -/
theorem transport_disconnect_immediate :
    ∀ (st : ServerState) (sess : Session) (rc rc2 : Option ReconnectResult)
      (msg : String) (cap2 : CaptureOutcome),
      st.cdpConnection = some sess →
      (jsIncludes msg "WebSocket" || jsIncludes msg "close") = true →
      (pollTick st rc (.throws msg)).1.cdpConnection = none ∧
      (pollTick st rc (.throws msg)).1.snapshotFailCount = st.snapshotFailCount + 1 ∧
      (pollTick st rc (.throws msg)).2.toreDown = false ∧
      (pollTick (pollTick st rc (.throws msg)).1 rc2 cap2).2.reconnectAttempted = true := by
  intro st sess rc rc2 msg cap2 hconn hmsg
  have h1 : pollTick st rc (.throws msg) =
      ({ st with snapshotFailCount := st.snapshotFailCount + 1, cdpConnection := none },
       quietLog) := by
    simp [pollTick, pollTickWith, hconn, hmsg]
  refine ⟨by rw [h1], by rw [h1], by rw [h1]; rfl, ?_⟩
  rw [h1]
  cases rc2 <;> simp [pollTick, pollTickWith]

/-- Witness: a concrete connected state, hit by a thrown
`WebSocket is not open` error, is disconnected on that tick and the next
tick attempts to reconnect. -/
theorem transport_disconnect_immediate_witness :
    (pollTick stConnW none (.throws "WebSocket is not open")).1.cdpConnection = none ∧
      (pollTick stConnW none (.throws "WebSocket is not open")).1.snapshotFailCount = 0 + 1 ∧
      (pollTick stConnW none (.throws "WebSocket is not open")).2.toreDown = false ∧
      (pollTick (pollTick stConnW none (.throws "WebSocket is not open")).1 none
          (.returns none)).2.reconnectAttempted = true :=
  transport_disconnect_immediate stConnW sessionW none none "WebSocket is not open"
    (.returns none) rfl (by decide)

/-- One protocol event keeps the registry list and the spec-side set in
sync. -/
theorem applyContextEvent_toFinset (l : List ExecutionContext) (e : CDPEvent) :
    (applyContextEvent l e).toFinset = specApplyRule l.toFinset e := by
  cases e with
  | contextCreated ctx =>
      simp only [applyContextEvent, specApplyRule]
      cases hf : l.find? (fun c => c.id == ctx.id) with
      | some c =>
          have hc : c ∈ l := List.mem_of_find?_eq_some hf
          have hcid := List.find?_some hf
          have hex : ∃ c ∈ l, c.id = ctx.id := ⟨c, hc, by simpa using hcid⟩
          simp [hex]
      | none =>
          have hnone : ∀ c ∈ l, c.id ≠ ctx.id := by
            intro c hc
            simpa using List.find?_eq_none.mp hf c hc
          have hnex : ¬ ∃ c ∈ l, c.id = ctx.id := by
            rintro ⟨c, hc, hid⟩
            exact hnone c hc hid
          simp only [List.mem_toFinset, hnex, if_false]
          ext x
          simp [List.mem_toFinset, List.mem_append, or_comm]
  | contextDestroyed i =>
      ext x
      simp [applyContextEvent, specApplyRule, List.mem_toFinset, List.mem_filter]
  | contextsCleared => simp [applyContextEvent, specApplyRule]
  | other m => rfl

/-- Registry ids stay pairwise distinct under one event. -/
theorem applyContextEvent_pairwise (l : List ExecutionContext) (e : CDPEvent)
    (h : l.Pairwise (fun a b => a.id ≠ b.id)) :
    (applyContextEvent l e).Pairwise (fun a b => a.id ≠ b.id) := by
  cases e with
  | contextCreated ctx =>
      simp only [applyContextEvent]
      cases hf : l.find? (fun c => c.id == ctx.id) with
      | some c => exact h
      | none =>
          have hnone : ∀ c ∈ l, c.id ≠ ctx.id := by
            intro c hc
            simpa using List.find?_eq_none.mp hf c hc
          refine List.pairwise_append.mpr ⟨h, List.pairwise_singleton _ _, ?_⟩
          intro a ha b hb
          have hb' : b = ctx := by simpa using hb
          subst hb'
          exact hnone a ha
  | contextDestroyed i => exact h.filter _
  | contextsCleared => exact List.Pairwise.nil
  | other m => exact h

/-- Replaying any event stream from any starting registry tracks the
spec-side fold and preserves distinctness of ids. -/
theorem foldl_replay (events : List CDPEvent) :
    ∀ l : List ExecutionContext,
      (events.foldl applyContextEvent l).toFinset = events.foldl specApplyRule l.toFinset ∧
      (l.Pairwise (fun a b => a.id ≠ b.id) →
        (events.foldl applyContextEvent l).Pairwise (fun a b => a.id ≠ b.id)) := by
  induction events with
  | nil => exact fun l => ⟨rfl, fun h => h⟩
  | cons e rest ih =>
      intro l
      constructor
      · rw [List.foldl_cons, List.foldl_cons, ← applyContextEvent_toFinset]
        exact (ih _).1
      · intro h
        exact (ih _).2 (applyContextEvent_pairwise l e h)

/-- C3: for every sequence of protocol events, the registry's resulting
set equals the fold of the spec's three rules over the stream — a
cleared event empties it, a destroyed event removes exactly the matching
id, a created event is ignored when the id is already present, and other
events leave it unchanged — and the registry never holds two contexts
with the same id. -/
theorem registry_replay_matches_spec :
    ∀ events : List CDPEvent,
      (replayContextEvents events).toFinset = specReplayEvents events ∧
      (replayContextEvents events).Pairwise (fun a b => a.id ≠ b.id) := by
  intro events
  refine ⟨?_, (foldl_replay events []).2 List.Pairwise.nil⟩
  have h := (foldl_replay events []).1
  simpa [replayContextEvents, specReplayEvents] using h

/-- A call whose handler is unregistered and whose timer is disarmed is
inert: no further event changes it. -/
theorem callStep_settled_fix (p : PendingCall) (e : CallEvent)
    (hh : p.handlerOn = false) (ht : p.timerOn = false) : callStep p e = p := by
  cases e with
  | message m => simp [callStep, hh]
  | timerFires => simp [callStep, ht]

/-- An inert call stays inert across any event sequence. -/
theorem runCall_fixed (events : List CallEvent) :
    ∀ p : PendingCall, p.handlerOn = false → p.timerOn = false →
      events.foldl callStep p = p := by
  induction events with
  | nil => intro p _ _; rfl
  | cons e rest ih =>
      intro p hh ht
      rw [List.foldl_cons, callStep_settled_fix p e hh ht]
      exact ih p hh ht

/-- Every state a call reaches from its issue point is either the fresh
registration or a fully cleaned-up settled state. -/
theorem runCall_cases (id : Int) (mth : String) (events : List CallEvent) :
    runCall (initCall id mth) events = initCall id mth ∨
    ∃ o, runCall (initCall id mth) events =
      { callId := id, method := mth, handlerOn := false, timerOn := false,
        settled := some o } := by
  induction events with
  | nil => exact Or.inl rfl
  | cons e rest ih =>
      have hstep : runCall (initCall id mth) (e :: rest) =
          rest.foldl callStep (callStep (initCall id mth) e) := rfl
      cases e with
      | message m =>
          by_cases hid : m.id == some id
          · have hs : callStep (initCall id mth) (.message m) =
                { callId := id, method := mth, handlerOn := false, timerOn := false,
                  settled := some (match m.error with
                                   | some e => .rpcError e
                                   | none => .success m.result) } := by
              cases herr : m.error <;>
                simp [callStep, initCall, hid, settlePromise, herr]
            refine Or.inr ⟨(match m.error with
                            | some e => .rpcError e
                            | none => .success m.result), ?_⟩
            rw [hstep, hs, runCall_fixed rest _ rfl rfl]
          · have hs : callStep (initCall id mth) (.message m) = initCall id mth := by
              simp [callStep, initCall, hid]
            rw [runCall] at ih
            rw [hstep, hs]
            exact ih
      | timerFires =>
          have hs : callStep (initCall id mth) .timerFires =
              { callId := id, method := mth, handlerOn := false, timerOn := false,
                settled := some (.timedOut mth) } := by
            simp [callStep, initCall, settlePromise]
          refine Or.inr ⟨.timedOut mth, ?_⟩
          rw [hstep, hs, runCall_fixed rest _ rfl rfl]

/-- C5: every call issued through the transport settles exactly once —
with the result on a matching success response, with the error payload on
a matching error response, or with the timeout error when the timeout
fires first. Once settled, nothing changes it again; the handler
registration and the armed timeout both disappear exactly when it
settles (the loser of the race is always cleaned up); and a second
response carrying the same id after settlement is ignored. -/
theorem rpc_call_settles_once (id : Int) (mth : String) :
    (∀ events more o, (runCall (initCall id mth) events).settled = some o →
        runCall (initCall id mth) (events ++ more) = runCall (initCall id mth) events) ∧
    (∀ events,
        ((runCall (initCall id mth) events).settled.isSome ↔
          (runCall (initCall id mth) events).handlerOn = false) ∧
        ((runCall (initCall id mth) events).settled.isSome ↔
          (runCall (initCall id mth) events).timerOn = false)) ∧
    (∀ events m, (runCall (initCall id mth) events).settled = none → m.id = some id →
        (runCall (initCall id mth) (events ++ [.message m])).settled =
          some (match m.error with
                | some e => .rpcError e
                | none => .success m.result)) ∧
    (∀ events, (runCall (initCall id mth) events).settled = none →
        (runCall (initCall id mth) (events ++ [.timerFires])).settled =
          some (.timedOut mth)) ∧
    (∀ events m o, (runCall (initCall id mth) events).settled = some o →
        runCall (initCall id mth) (events ++ [.message m]) =
          runCall (initCall id mth) events) := by
  have happ : ∀ (events more : List CallEvent),
      runCall (initCall id mth) (events ++ more) =
        more.foldl callStep (runCall (initCall id mth) events) := by
    intro events more
    simp [runCall, List.foldl_append]
  have hstable : ∀ events more o, (runCall (initCall id mth) events).settled = some o →
      runCall (initCall id mth) (events ++ more) = runCall (initCall id mth) events := by
    intro events more o hset
    rcases runCall_cases id mth events with hcase | ⟨o2, hcase⟩
    · rw [hcase] at hset
      simp [initCall] at hset
    · rw [happ, hcase]
      exact runCall_fixed more _ rfl rfl
  have hfresh : ∀ events, (runCall (initCall id mth) events).settled = none →
      runCall (initCall id mth) events = initCall id mth := by
    intro events hset
    rcases runCall_cases id mth events with hcase | ⟨o2, hcase⟩
    · exact hcase
    · rw [hcase] at hset
      simp at hset
  refine ⟨hstable, ?_, ?_, ?_, fun events m o h => hstable events [.message m] o h⟩
  · intro events
    rcases runCall_cases id mth events with hcase | ⟨o2, hcase⟩ <;>
      rw [hcase] <;> simp [initCall]
  · intro events m hset hid
    have h1 : runCall (initCall id mth) (events ++ [.message m]) =
        callStep (initCall id mth) (.message m) := by
      rw [happ, hfresh events hset]
      rfl
    rw [h1]
    have hid' : (m.id == some id) = true := by simp [hid]
    cases herr : m.error <;> simp [callStep, initCall, hid', settlePromise, herr]
  · intro events hset
    have h1 : runCall (initCall id mth) (events ++ [.timerFires]) =
        callStep (initCall id mth) .timerFires := by
      rw [happ, hfresh events hset]
      rfl
    rw [h1]
    simp [callStep, initCall, settlePromise]

/-- Witness: a concrete call that receives a matching success response
settles with that result, and a duplicate response with the same id
afterwards leaves the call unchanged. -/
theorem rpc_call_settles_once_witness :
    (runCall (initCall 1 "Runtime.enable")
        ([] ++ [CallEvent.message ⟨some 1, none, some "r"⟩])).settled =
      some (.success (some "r")) ∧
    runCall (initCall 1 "Runtime.enable")
        ([CallEvent.message ⟨some 1, none, some "r"⟩] ++
          [CallEvent.message ⟨some 1, none, some "again"⟩]) =
      runCall (initCall 1 "Runtime.enable") [CallEvent.message ⟨some 1, none, some "r"⟩] := by
  constructor
  · exact (rpc_call_settles_once 1 "Runtime.enable").2.2.1 []
      ⟨some 1, none, some "r"⟩ rfl rfl
  · exact (rpc_call_settles_once 1 "Runtime.enable").2.2.2.2
      [CallEvent.message ⟨some 1, none, some "r"⟩]
      ⟨some 1, none, some "again"⟩ (.success (some "r")) (by decide)

/-- A connected tick that observes an absorbed capture failure bumps the
counter, and tears the session down exactly when the bumped counter
reaches the threshold. -/
theorem pollTickWith_failure (maxFails : Nat) (st : ServerState) (sess : Session)
    (rc : Option ReconnectResult) (cap : CaptureOutcome)
    (hconn : st.cdpConnection = some sess) (hfail : isAbsorbedFailure cap = true) :
    pollTickWith maxFails st rc cap =
      if st.snapshotFailCount + 1 ≥ maxFails then
        ({ st with cdpConnection := none, snapshotFailCount := 0 },
         { quietLog with toreDown := true })
      else
        ({ st with snapshotFailCount := st.snapshotFailCount + 1 }, quietLog) := by
  cases cap with
  | throws msg => simp [isAbsorbedFailure] at hfail
  | returns r =>
      cases r with
      | none => simp only [pollTickWith, hconn]
      | some s =>
          have herr : truthyStr s.error = true := by
            simpa [isAbsorbedFailure] using hfail
          simp only [pollTickWith, hconn, herr, if_true]

/-- A connected tick whose capture succeeds resets the counter, and
replaces the stored payload and fingerprint and broadcasts a
`snapshot_update` notification exactly when the fingerprint changed. -/
theorem pollTickWith_success (maxFails : Nat) (hN : 1 ≤ maxFails) (st : ServerState)
    (sess : Session) (rc : Option ReconnectResult) (snap : Snapshot)
    (hconn : st.cdpConnection = some sess) (herr : truthyStr snap.error = false) :
    pollTickWith maxFails st rc (.returns (some snap)) =
      if st.lastSnapshotHash = some (hashString snap.html) then
        ({ st with snapshotFailCount := 0 }, quietLog)
      else
        ({ st with snapshotFailCount := 0, lastSnapshot := some snap,
                   lastSnapshotHash := some (hashString snap.html) },
         { quietLog with broadcast := some { type := "snapshot_update" } }) := by
  have h0 : ¬ (0 ≥ maxFails) := by omega
  by_cases hh : st.lastSnapshotHash = some (hashString snap.html) <;>
    simp [pollTickWith, hconn, herr, hh, h0]

/-- Runs decompose over appended tick-input lists. -/
theorem runTicksWith_append (maxFails : Nat)
    (l1 l2 : List (Option ReconnectResult × CaptureOutcome)) :
    ∀ st : ServerState,
      runTicksWith maxFails st (l1 ++ l2) =
        ((runTicksWith maxFails (runTicksWith maxFails st l1).1 l2).1,
         (runTicksWith maxFails st l1).2 ++
           (runTicksWith maxFails (runTicksWith maxFails st l1).1 l2).2) := by
  induction l1 with
  | nil => intro st; simp [runTicksWith]
  | cons p rest ih =>
      intro st
      obtain ⟨rc, cap⟩ := p
      have h1 : runTicksWith maxFails st (((rc, cap) :: rest) ++ l2) =
          ((runTicksWith maxFails (pollTickWith maxFails st rc cap).1 (rest ++ l2)).1,
           (pollTickWith maxFails st rc cap).2 ::
             (runTicksWith maxFails (pollTickWith maxFails st rc cap).1 (rest ++ l2)).2) := rfl
      have h2 : runTicksWith maxFails st ((rc, cap) :: rest) =
          ((runTicksWith maxFails (pollTickWith maxFails st rc cap).1 rest).1,
           (pollTickWith maxFails st rc cap).2 ::
             (runTicksWith maxFails (pollTickWith maxFails st rc cap).1 rest).2) := rfl
      rw [h1, h2, ih]
      simp

/-- Below the threshold, a run of absorbed failures adds its length to
the counter and has no external effect. -/
theorem runTicks_failures_below (maxFails : Nat) :
    ∀ (caps : List CaptureOutcome) (st : ServerState) (sess : Session),
      st.cdpConnection = some sess →
      (∀ c ∈ caps, isAbsorbedFailure c = true) →
      st.snapshotFailCount + caps.length < maxFails →
      runTicksWith maxFails st (caps.map (fun c => (none, c))) =
        ({ st with snapshotFailCount := st.snapshotFailCount + caps.length },
         List.replicate caps.length quietLog) := by
  intro caps
  induction caps with
  | nil => intro st sess hconn _ _; simp [runTicksWith]
  | cons c rest ih =>
      intro st sess hconn hall hlt
      have hfail : isAbsorbedFailure c = true := hall c (List.mem_cons_self c rest)
      have hstep := pollTickWith_failure maxFails st sess none c hconn hfail
      have hnot : ¬ (st.snapshotFailCount + 1 ≥ maxFails) := by
        simp only [List.length_cons] at hlt
        omega
      rw [if_neg hnot] at hstep
      have hrest := ih { st with snapshotFailCount := st.snapshotFailCount + 1 } sess hconn
        (fun x hx => hall x (List.mem_cons_of_mem c hx))
        (by
          simp only [List.length_cons] at hlt
          show st.snapshotFailCount + 1 + rest.length < maxFails
          omega)
      have hunfold : runTicksWith maxFails st
          ((none, c) :: rest.map (fun c => ((none : Option ReconnectResult), c))) =
          ((runTicksWith maxFails (pollTickWith maxFails st none c).1
              (rest.map (fun c => (none, c)))).1,
           (pollTickWith maxFails st none c).2 ::
             (runTicksWith maxFails (pollTickWith maxFails st none c).1
               (rest.map (fun c => (none, c)))).2) := rfl
      rw [List.map_cons, hunfold, hstep]
      simp only [hrest, List.length_cons, List.replicate_succ, Prod.mk.injEq,
        ServerState.mk.injEq, and_true, true_and]
      omega

/-- A run of absorbed failures that exactly exhausts the threshold tears
down on its last tick and on no earlier one, leaving the counter reset
and the connection dropped. -/
theorem runTicks_failures_exhaust (maxFails : Nat) :
    ∀ (caps : List CaptureOutcome) (st : ServerState) (sess : Session),
      st.cdpConnection = some sess →
      (∀ c ∈ caps, isAbsorbedFailure c = true) →
      st.snapshotFailCount + caps.length = maxFails →
      1 ≤ caps.length →
      runTicksWith maxFails st (caps.map (fun c => (none, c))) =
        ({ st with cdpConnection := none, snapshotFailCount := 0 },
         List.replicate (caps.length - 1) quietLog ++
           [{ quietLog with toreDown := true }]) := by
  intro caps
  induction caps with
  | nil => intro st sess _ _ _ hone; simp at hone
  | cons c rest ih =>
      intro st sess hconn hall heq hone
      have hfail : isAbsorbedFailure c = true := hall c (List.mem_cons_self c rest)
      have hstep := pollTickWith_failure maxFails st sess none c hconn hfail
      cases rest with
      | nil =>
          have hhit : st.snapshotFailCount + 1 ≥ maxFails := by
            simp only [List.length_cons, List.length_nil] at heq
            omega
          rw [if_pos hhit] at hstep
          simp [runTicksWith, hstep]
      | cons c2 rest2 =>
          have hnot : ¬ (st.snapshotFailCount + 1 ≥ maxFails) := by
            simp only [List.length_cons] at heq
            omega
          rw [if_neg hnot] at hstep
          have hrest := ih { st with snapshotFailCount := st.snapshotFailCount + 1 } sess hconn
            (fun x hx => hall x (List.mem_cons_of_mem c hx))
            (by
              simp only [List.length_cons] at heq
              show st.snapshotFailCount + 1 + (c2 :: rest2).length = maxFails
              simp only [List.length_cons]
              omega)
            (by simp)
          have hunfold : runTicksWith maxFails st
              ((none, c) :: (c2 :: rest2).map (fun c => ((none : Option ReconnectResult), c))) =
              ((runTicksWith maxFails (pollTickWith maxFails st none c).1
                  ((c2 :: rest2).map (fun c => (none, c)))).1,
               (pollTickWith maxFails st none c).2 ::
                 (runTicksWith maxFails (pollTickWith maxFails st none c).1
                   ((c2 :: rest2).map (fun c => (none, c)))).2) := rfl
          rw [List.map_cons, hunfold, hstep]
          simp only [hrest, List.length_cons, Nat.add_sub_cancel, List.replicate_succ,
            List.cons_append, Prod.mk.injEq, ServerState.mk.injEq, and_true, true_and]

/-- A successful capture followed by fewer failures than the threshold
never tears down: the success resets the counter first. -/
theorem runTicks_success_then_below (N : Nat) (hN : 1 ≤ N) (stX : ServerState)
    (sess : Session) (snap : Snapshot) (caps2 : List CaptureOutcome)
    (hconn : stX.cdpConnection = some sess) (herr : truthyStr snap.error = false)
    (h2 : ∀ c ∈ caps2, isAbsorbedFailure c = true) (hlt : caps2.length < N) :
    ∀ l ∈ (runTicksWith N stX
        (((none : Option ReconnectResult), CaptureOutcome.returns (some snap)) ::
          caps2.map (fun c => (none, c)))).2, l.toreDown = false := by
  have hunfold : runTicksWith N stX
      ((none, CaptureOutcome.returns (some snap)) :: caps2.map (fun c => (none, c))) =
      ((runTicksWith N (pollTickWith N stX none (.returns (some snap))).1
          (caps2.map (fun c => (none, c)))).1,
       (pollTickWith N stX none (.returns (some snap))).2 ::
         (runTicksWith N (pollTickWith N stX none (.returns (some snap))).1
           (caps2.map (fun c => (none, c)))).2) := rfl
  have hsucc := pollTickWith_success N hN stX sess none snap hconn herr
  by_cases hh : stX.lastSnapshotHash = some (hashString snap.html)
  · rw [if_pos hh] at hsucc
    have hb := runTicks_failures_below N caps2 { stX with snapshotFailCount := 0 } sess
      hconn h2 (by show 0 + caps2.length < N; omega)
    intro l hl
    simp only [hunfold, hsucc, hb] at hl
    rcases List.mem_cons.mp hl with h | h
    · rw [h]
      rfl
    · rw [List.eq_of_mem_replicate h]
      rfl
  · rw [if_neg hh] at hsucc
    have hb := runTicks_failures_below N caps2
      { stX with snapshotFailCount := 0, lastSnapshot := some snap,
                 lastSnapshotHash := some (hashString snap.html) } sess
      hconn h2 (by show 0 + caps2.length < N; omega)
    intro l hl
    simp only [hunfold, hsucc, hb] at hl
    rcases List.mem_cons.mp hl with h | h
    · rw [h]
      rfl
    · rw [List.eq_of_mem_replicate h]
      rfl

/-- C2: with capture-failure threshold `N ≥ 1`, starting from a connected
state with a zero counter: a run of exactly `N` absorbed capture failures
(null results or explicit error payloads) tears the session down exactly
once — on the `N`-th tick and on no earlier one — after which the counter
is reset and the connection dropped, and the next tick takes the
reconnect branch; whereas `N−1` failures, one success, then `N−1` more
failures never tear down, because the success resets the counter. -/
theorem polling_failure_threshold
    (N : Nat) (hN : 1 ≤ N)
    (st : ServerState) (sess : Session)
    (hconn : st.cdpConnection = some sess) (hf0 : st.snapshotFailCount = 0)
    (caps caps1 caps2 : List CaptureOutcome)
    (hcaps : ∀ c ∈ caps, isAbsorbedFailure c = true) (hlen : caps.length = N)
    (h1 : ∀ c ∈ caps1, isAbsorbedFailure c = true) (hlen1 : caps1.length = N - 1)
    (h2 : ∀ c ∈ caps2, isAbsorbedFailure c = true) (hlen2 : caps2.length = N - 1)
    (snap : Snapshot) (herr : truthyStr snap.error = false)
    (rc : Option ReconnectResult) (cap : CaptureOutcome) :
    (runTicksWith N st (caps.map (fun c => (none, c)))).2.map TickLog.toreDown =
        List.replicate (N - 1) false ++ [true] ∧
    (runTicksWith N st (caps.map (fun c => (none, c)))).1.cdpConnection = none ∧
    (runTicksWith N st (caps.map (fun c => (none, c)))).1.snapshotFailCount = 0 ∧
    (pollTickWith N (runTicksWith N st (caps.map (fun c => (none, c)))).1
        rc cap).2.reconnectAttempted = true ∧
    (∀ l ∈ (runTicksWith N st
        ((caps1 ++ CaptureOutcome.returns (some snap) :: caps2).map
          (fun c => (none, c)))).2, l.toreDown = false) := by
  have hex := runTicks_failures_exhaust N caps st sess hconn hcaps (by omega) (by omega)
  refine ⟨?_, ?_, ?_, ?_, ?_⟩
  · rw [hex]
    simp [quietLog, hlen]
  · rw [hex]
  · rw [hex]
  · rw [hex]
    cases rc <;> simp [pollTickWith]
  · have hlt1 : st.snapshotFailCount + caps1.length < N := by omega
    have hb1 := runTicks_failures_below N caps1 st sess hconn h1 hlt1
    have hmap : (caps1 ++ CaptureOutcome.returns (some snap) :: caps2).map
          (fun c => ((none : Option ReconnectResult), c)) =
        caps1.map (fun c => (none, c)) ++
          ((none, CaptureOutcome.returns (some snap)) ::
            caps2.map (fun c => (none, c))) := by
      simp
    have htail := runTicks_success_then_below N hN
      { st with snapshotFailCount := st.snapshotFailCount + caps1.length } sess snap caps2
      hconn herr h2 (by omega)
    intro l hl
    rw [hmap, runTicksWith_append] at hl
    simp only [hb1] at hl
    rcases List.mem_append.mp hl with h | h
    · rw [List.eq_of_mem_replicate h]
      rfl
    · exact htail l h

/-- Witness: scenario C — threshold 5, a connected clean state, five
consecutive `{error: "x"}` captures. Teardown fires exactly on the fifth
tick, the connection is dropped with the counter reset, the sixth tick
attempts to reconnect, and four failures / one success / four failures
never tear down. -/
theorem polling_failure_threshold_witness :
    (runTicksWith 5 stConnW ((List.replicate 5
        (CaptureOutcome.returns (some errSnapshotX))).map
        (fun c => (none, c)))).2.map TickLog.toreDown =
      List.replicate (5 - 1) false ++ [true] ∧
    (runTicksWith 5 stConnW ((List.replicate 5
        (CaptureOutcome.returns (some errSnapshotX))).map
        (fun c => (none, c)))).1.cdpConnection = none ∧
    (runTicksWith 5 stConnW ((List.replicate 5
        (CaptureOutcome.returns (some errSnapshotX))).map
        (fun c => (none, c)))).1.snapshotFailCount = 0 ∧
    (pollTickWith 5 (runTicksWith 5 stConnW ((List.replicate 5
        (CaptureOutcome.returns (some errSnapshotX))).map
        (fun c => (none, c)))).1
        none (.returns none)).2.reconnectAttempted = true ∧
    (∀ l ∈ (runTicksWith 5 stConnW
        ((List.replicate 4 (CaptureOutcome.returns none) ++
          CaptureOutcome.returns (some okSnapshotW) ::
            List.replicate 4 (CaptureOutcome.returns none)).map
          (fun c => (none, c)))).2, l.toreDown = false) :=
  polling_failure_threshold 5 (by norm_num) stConnW sessionW rfl rfl
    (List.replicate 5 (.returns (some errSnapshotX)))
    (List.replicate 4 (.returns none)) (List.replicate 4 (.returns none))
    (by decide) (by decide) (by decide) (by decide) (by decide) (by decide)
    okSnapshotW (by decide) none (.returns none)

/-- C4: on a tick whose capture succeeds, the broadcast to the connected
clients is emitted if and only if the payload's fingerprint differs from
the stored one, in which case — and only in which case — the stored
payload and fingerprint are replaced; the broadcast carries only the
constant lightweight `snapshot_update` notification, never the payload;
and two consecutive captures of byte-identical payloads from a state not
already holding that fingerprint broadcast exactly once, on the first
capture. -/
theorem broadcast_iff_fingerprint_changed
    (st : ServerState) (sess : Session) (rc rc2 : Option ReconnectResult)
    (snap : Snapshot)
    (hconn : st.cdpConnection = some sess) (herr : truthyStr snap.error = false) :
    ((pollTick st rc (.returns (some snap))).2.broadcast ≠ none ↔
      st.lastSnapshotHash ≠ some (hashString snap.html)) ∧
    (pollTick st rc (.returns (some snap))).2.broadcast =
      (if st.lastSnapshotHash = some (hashString snap.html) then none
       else some { type := "snapshot_update" }) ∧
    (pollTick st rc (.returns (some snap))).1.lastSnapshot =
      (if st.lastSnapshotHash = some (hashString snap.html) then st.lastSnapshot
       else some snap) ∧
    (pollTick st rc (.returns (some snap))).1.lastSnapshotHash =
      (if st.lastSnapshotHash = some (hashString snap.html) then st.lastSnapshotHash
       else some (hashString snap.html)) ∧
    (st.lastSnapshotHash ≠ some (hashString snap.html) →
      (runTicksWith MAX_SNAPSHOT_FAILS st
          [(rc, .returns (some snap)), (rc2, .returns (some snap))]).2.map
          TickLog.broadcast =
        [some { type := "snapshot_update" }, none]) := by
  have hsucc := pollTickWith_success MAX_SNAPSHOT_FAILS (by decide) st sess rc snap
    hconn herr
  by_cases hh : st.lastSnapshotHash = some (hashString snap.html)
  · rw [if_pos hh] at hsucc
    refine ⟨?_, ?_, ?_, ?_, fun hne => absurd hh hne⟩ <;>
      simp [pollTick, hsucc, hh, quietLog]
  · rw [if_neg hh] at hsucc
    have hstep2 := pollTickWith_success MAX_SNAPSHOT_FAILS (by decide)
      { st with snapshotFailCount := 0, lastSnapshot := some snap,
                lastSnapshotHash := some (hashString snap.html) } sess rc2 snap
      hconn herr
    rw [if_pos rfl] at hstep2
    refine ⟨?_, ?_, ?_, ?_, fun hne => ?_⟩ <;>
      simp [pollTick, runTicksWith, hsucc, hstep2, hh, quietLog]

/-- Witness: from the clean connected state (no stored fingerprint), a
concrete successful capture broadcasts and stores the payload, and an
immediate identical capture does not broadcast again. -/
theorem broadcast_iff_fingerprint_changed_witness :
    ((pollTick stConnW none (.returns (some okSnapshotW))).2.broadcast ≠ none ↔
      stConnW.lastSnapshotHash ≠ some (hashString okSnapshotW.html)) ∧
    (pollTick stConnW none (.returns (some okSnapshotW))).2.broadcast =
      (if stConnW.lastSnapshotHash = some (hashString okSnapshotW.html) then none
       else some { type := "snapshot_update" }) ∧
    (pollTick stConnW none (.returns (some okSnapshotW))).1.lastSnapshot =
      (if stConnW.lastSnapshotHash = some (hashString okSnapshotW.html) then
        stConnW.lastSnapshot
       else some okSnapshotW) ∧
    (pollTick stConnW none (.returns (some okSnapshotW))).1.lastSnapshotHash =
      (if stConnW.lastSnapshotHash = some (hashString okSnapshotW.html) then
        stConnW.lastSnapshotHash
       else some (hashString okSnapshotW.html)) ∧
    (stConnW.lastSnapshotHash ≠ some (hashString okSnapshotW.html) →
      (runTicksWith MAX_SNAPSHOT_FAILS stConnW
          [(none, .returns (some okSnapshotW)), (none, .returns (some okSnapshotW))]).2.map
          TickLog.broadcast =
        [some { type := "snapshot_update" }, none]) :=
  broadcast_iff_fingerprint_changed stConnW sessionW none none okSnapshotW rfl (by decide)

/-- C10: the change-detection fingerprint is `hashString` of the `html`
field alone, and `hashString` is a deterministic function, so equal
`html` strings yield equal fingerprints; consequently, when a successful
capture is followed by another whose `html` is equal — even if its
`css`, `backgroundColor`, `color` or `fontFamily` differ — the second
tick broadcasts nothing and leaves the stored payload and fingerprint
exactly as the first tick left them. -/
theorem fingerprint_depends_on_html_only
    (st : ServerState) (sess : Session) (rc1 rc2 : Option ReconnectResult)
    (s1 s2 : Snapshot)
    (hconn : st.cdpConnection = some sess)
    (herr1 : truthyStr s1.error = false) (herr2 : truthyStr s2.error = false)
    (hhtml : s1.html = s2.html) :
    hashString s1.html = hashString s2.html ∧
    (pollTick (pollTick st rc1 (.returns (some s1))).1 rc2
        (.returns (some s2))).2.broadcast = none ∧
    (pollTick (pollTick st rc1 (.returns (some s1))).1 rc2
        (.returns (some s2))).1.lastSnapshot =
      (pollTick st rc1 (.returns (some s1))).1.lastSnapshot ∧
    (pollTick (pollTick st rc1 (.returns (some s1))).1 rc2
        (.returns (some s2))).1.lastSnapshotHash =
      (pollTick st rc1 (.returns (some s1))).1.lastSnapshotHash := by
  refine ⟨by rw [hhtml], ?_⟩
  have hsucc1 := pollTickWith_success MAX_SNAPSHOT_FAILS (by decide) st sess rc1 s1
    hconn herr1
  by_cases hh : st.lastSnapshotHash = some (hashString s1.html)
  · rw [if_pos hh] at hsucc1
    have hsucc2 := pollTickWith_success MAX_SNAPSHOT_FAILS (by decide)
      { st with snapshotFailCount := 0 } sess rc2 s2 hconn herr2
    rw [if_pos (by rw [← hhtml]; exact hh)] at hsucc2
    simp [pollTick, hsucc1, hsucc2, quietLog]
  · rw [if_neg hh] at hsucc1
    have hsucc2 := pollTickWith_success MAX_SNAPSHOT_FAILS (by decide)
      { st with snapshotFailCount := 0, lastSnapshot := some s1,
                lastSnapshotHash := some (hashString s1.html) } sess rc2 s2 hconn herr2
    rw [if_pos (by rw [← hhtml])] at hsucc2
    simp [pollTick, hsucc1, hsucc2, quietLog]

/-- Witness: two concrete captures with equal `html` but different
styling fields — the second broadcasts nothing and changes no stored
state. -/
theorem fingerprint_depends_on_html_only_witness :
    hashString okSnapshotW.html = hashString okSnapshotW2.html ∧
    (pollTick (pollTick stConnW none (.returns (some okSnapshotW))).1 none
        (.returns (some okSnapshotW2))).2.broadcast = none ∧
    (pollTick (pollTick stConnW none (.returns (some okSnapshotW))).1 none
        (.returns (some okSnapshotW2))).1.lastSnapshot =
      (pollTick stConnW none (.returns (some okSnapshotW))).1.lastSnapshot ∧
    (pollTick (pollTick stConnW none (.returns (some okSnapshotW))).1 none
        (.returns (some okSnapshotW2))).1.lastSnapshotHash =
      (pollTick stConnW none (.returns (some okSnapshotW))).1.lastSnapshotHash :=
  fingerprint_depends_on_html_only stConnW sessionW none none okSnapshotW okSnapshotW2
    rfl (by decide) (by decide) rfl

/-- A slot whose probe appears in the arrival order holds that probe's
outcome, regardless of where in the order it finished. -/
theorem fillSlots_mem (outcomes : Nat → Option Candidate) :
    ∀ (arrival : List Nat) (j : Nat), j ∈ arrival →
      fillSlots outcomes arrival j = outcomes j := by
  intro arrival
  induction arrival with
  | nil => intro j hj; simp at hj
  | cons i rest ih =>
      intro j hj
      by_cases hji : j = i
      · subst hji
        simp [fillSlots]
      · have hr : j ∈ rest := by
          rcases List.mem_cons.mp hj with h | h
          · exact absurd h hji
          · exact h
        simp [fillSlots, hji, ih j hr]

/-- C1: `discoverCDP` is invariant under the completion order of the
concurrent probes — for every permutation of finish times the assembled
result array, and hence the selection, is the same — and it returns the
candidate of the earliest endpoint in the fixed `PORTS` priority order
among all endpoints that produced a match (the concurrent selection
coincides with probing the ports sequentially in priority order), and it
fails with the no-target error exactly when no endpoint yields a match. -/
theorem discoverOne_priority (fetch : Nat → Option (List RawTarget))
    (arrival : List Nat) (hperm : arrival.Perm (List.range 5)) :
    discoverCDPArrival fetch arrival = discoverCDP fetch ∧
    discoverCDP fetch =
      (match PORTS.findSome? (fun p => checkPortOne (fetch p) p) with
       | some m => .ok { port := m.port, url := m.url, id := m.id }
       | none => .error noTargetFoundMsg) ∧
    (discoverCDP fetch = .error noTargetFoundMsg ↔
      ∀ p ∈ PORTS, checkPortOne (fetch p) p = none) := by
  have hmem : ∀ j, j ∈ List.range 5 → j ∈ arrival := fun j hj => hperm.mem_iff.mpr hj
  refine ⟨?_, ?_, ?_⟩
  · have e0 := fillSlots_mem
      (fun i => checkPortOne (fetch (PORTS.getD i 0)) (PORTS.getD i 0))
      arrival 0 (hmem 0 (by decide))
    have e1 := fillSlots_mem
      (fun i => checkPortOne (fetch (PORTS.getD i 0)) (PORTS.getD i 0))
      arrival 1 (hmem 1 (by decide))
    have e2 := fillSlots_mem
      (fun i => checkPortOne (fetch (PORTS.getD i 0)) (PORTS.getD i 0))
      arrival 2 (hmem 2 (by decide))
    have e3 := fillSlots_mem
      (fun i => checkPortOne (fetch (PORTS.getD i 0)) (PORTS.getD i 0))
      arrival 3 (hmem 3 (by decide))
    have e4 := fillSlots_mem
      (fun i => checkPortOne (fetch (PORTS.getD i 0)) (PORTS.getD i 0))
      arrival 4 (hmem 4 (by decide))
    have hda : discoverCDPArrival fetch arrival =
        (match ((List.range PORTS.length).map
            (fillSlots (fun i => checkPortOne (fetch (PORTS.getD i 0)) (PORTS.getD i 0))
              arrival)).findSome? (fun x => x) with
          | some m => Except.ok ⟨m.port, m.url, m.id⟩
          | none => Except.error noTargetFoundMsg) := rfl
    have hlist : (List.range PORTS.length).map
        (fillSlots (fun i => checkPortOne (fetch (PORTS.getD i 0)) (PORTS.getD i 0))
          arrival) =
        PORTS.map (fun p => checkPortOne (fetch p) p) := by
      have hr : List.range PORTS.length = [0, 1, 2, 3, 4] := rfl
      rw [hr]
      simp only [List.map_cons, List.map_nil, e0, e1, e2, e3, e4]
      rfl
    rw [hda, hlist]
    rfl
  · rfl
  · have hd : discoverCDP fetch =
        (match (PORTS.map (fun p => checkPortOne (fetch p) p)).findSome?
            (fun x => x) with
          | some m => Except.ok ⟨m.port, m.url, m.id⟩
          | none => Except.error noTargetFoundMsg) := rfl
    rw [hd]
    cases hcase : (PORTS.map (fun p => checkPortOne (fetch p) p)).findSome?
        (fun x => x) with
    | some m =>
        simp only [hcase]
        constructor
        · intro h
          exact absurd h (by simp)
        · intro hall
          have : (PORTS.map (fun p => checkPortOne (fetch p) p)).findSome?
              (fun x => x) = none := by
            rw [List.findSome?_eq_none_iff]
            intro x hx
            rcases List.mem_map.mp hx with ⟨p, hp, hpx⟩
            rw [← hpx]
            exact hall p hp
          rw [hcase] at this
          exact absurd this (by simp)
    | none =>
        simp only [hcase]
        constructor
        · intro _
          have hnone := List.findSome?_eq_none_iff.mp hcase
          intro p hp
          exact hnone (checkPortOne (fetch p) p)
            (List.mem_map.mpr ⟨p, hp, rfl⟩)
        · intro _
          trivial

/-- Witness: scenario A — only the third-priority endpoint (9222)
responds with a valid target; discovery returns that target, under an
arrival order that finishes the probes in reverse. -/
theorem discoverOne_priority_witness :
    discoverCDPArrival fetchA [4, 3, 2, 1, 0] = discoverCDP fetchA ∧
    discoverCDP fetchA =
      .ok { port := 9222, url := "ws://127.0.0.1:9222/devtools/page/ABC", id := "ABC" } := by
  constructor
  · exact (discoverOne_priority fetchA [4, 3, 2, 1, 0] (by decide)).1
  · rfl

/-- Elements kept by the seen-url loop come from the input list. -/
theorem dedupeByUrlAux_subset :
    ∀ (l : List InstanceInfo) (seen : List String) (x : InstanceInfo),
      x ∈ dedupeByUrlAux l seen → x ∈ l := by
  intro l
  induction l with
  | nil => intro seen x hx; simp [dedupeByUrlAux] at hx
  | cons t rest ih =>
      intro seen x hx
      by_cases hc : seen.contains t.url = true
      · simp only [dedupeByUrlAux, hc, if_true] at hx
        exact List.mem_cons_of_mem t (ih seen x hx)
      · simp only [dedupeByUrlAux, hc, if_false] at hx
        rcases List.mem_cons.mp hx with h | h
        · rw [h]; exact List.mem_cons_self t rest
        · exact List.mem_cons_of_mem t (ih _ x h)

/-- Urls kept by the loop avoid the seen set. -/
theorem dedupeByUrlAux_avoid :
    ∀ (l : List InstanceInfo) (seen : List String) (x : InstanceInfo),
      x ∈ dedupeByUrlAux l seen → ¬ x.url ∈ seen := by
  intro l
  induction l with
  | nil => intro seen x hx; simp [dedupeByUrlAux] at hx
  | cons t rest ih =>
      intro seen x hx
      by_cases hc : seen.contains t.url = true
      · simp only [dedupeByUrlAux, hc, if_true] at hx
        exact ih seen x hx
      · simp only [dedupeByUrlAux, hc, if_false] at hx
        rcases List.mem_cons.mp hx with h | h
        · intro hmem
          rw [h] at hmem
          exact hc (List.elem_iff.mpr hmem)
        · intro hmem
          exact ih _ x h (List.mem_cons_of_mem _ hmem)

/-- The loop's output has pairwise-distinct urls. -/
theorem dedupeByUrlAux_pairwise :
    ∀ (l : List InstanceInfo) (seen : List String),
      (dedupeByUrlAux l seen).Pairwise (fun a b => a.url ≠ b.url) := by
  intro l
  induction l with
  | nil => intro seen; exact List.Pairwise.nil
  | cons t rest ih =>
      intro seen
      by_cases hc : seen.contains t.url = true
      · simp only [dedupeByUrlAux, hc, if_true]
        exact ih seen
      · simp only [dedupeByUrlAux, hc, if_false]
        refine List.pairwise_cons.mpr ⟨?_, ih _⟩
        intro b hb
        have hav := dedupeByUrlAux_avoid rest (t.url :: seen) b hb
        intro heq
        exact hav (by rw [← heq]; exact List.mem_cons_self _ _)

/-- Every input url is represented in the output or was already seen. -/
theorem dedupeByUrlAux_covers :
    ∀ (l : List InstanceInfo) (seen : List String) (c : InstanceInfo), c ∈ l →
      c.url ∈ seen ∨ ∃ x ∈ dedupeByUrlAux l seen, x.url = c.url := by
  intro l
  induction l with
  | nil => intro seen c hc; simp at hc
  | cons t rest ih =>
      intro seen c hc
      by_cases hcs : seen.contains t.url = true
      · simp only [dedupeByUrlAux, hcs, if_true]
        rcases List.mem_cons.mp hc with h | h
        · left
          rw [h]
          exact List.elem_iff.mp hcs
        · exact ih seen c h
      · simp only [dedupeByUrlAux, hcs, if_false]
        rcases List.mem_cons.mp hc with h | h
        · right
          exact ⟨t, List.mem_cons_self _ _, by rw [h]⟩
        · rcases ih (t.url :: seen) c h with hl | ⟨x, hx, hxu⟩
          · rcases List.mem_cons.mp hl with h2 | h2
            · right
              exact ⟨t, List.mem_cons_self _ _, h2.symm⟩
            · left
              exact h2
          · right
            exact ⟨x, List.mem_cons_of_mem _ hx, hxu⟩

/-- Every instance produced by a port's probe is annotated with that
port. -/
theorem checkPortAll_port (fetched : Option (List RawTarget)) (p : Nat)
    (x : InstanceInfo) (hx : x ∈ checkPortAll fetched p) : x.port = p := by
  cases fetched with
  | none => simp [checkPortAll] at hx
  | some list =>
      simp only [checkPortAll] at hx
      rcases List.mem_map.mp hx with ⟨t, ht, rfl⟩
      rfl

/-- C8 counterexample: with the same target id `X` exposed on ports 9000
and 9001, `discoverAllTargets` keeps both entries: the de-duplication key
is the WebSocket debugger URL, which embeds the endpoint, so matches are
not de-duplicated by an endpoint-independent per-target identifier. -/
theorem discoverAll_not_dedup_by_id :
    (discoverAllTargets fetchDup).map InstanceInfo.id = ["X", "X"] ∧
    ¬ ((discoverAllTargets fetchDup).map InstanceInfo.id).Nodup := by
  constructor
  · rfl
  · decide

/-- C8 (amended): `discoverAllTargets` probes every endpoint and returns
every match across every endpoint de-duplicated by WebSocket debugger
URL — the key the code actually uses, which embeds the endpoint — with
each returned match annotated with the port it came from: the returned
urls are pairwise distinct, every returned instance belongs to the probe
result of its own annotated port, and every match of every port keeps a
representative with the same url in the result. -/
theorem discoverAll_dedup_by_url (fetch : Nat → Option (List RawTarget)) :
    (discoverAllTargets fetch).Pairwise (fun a b => a.url ≠ b.url) ∧
    (∀ inst ∈ discoverAllTargets fetch,
      inst.port ∈ PORTS ∧ inst ∈ checkPortAll (fetch inst.port) inst.port) ∧
    (∀ p ∈ PORTS, ∀ c ∈ checkPortAll (fetch p) p,
      ∃ inst ∈ discoverAllTargets fetch, inst.url = c.url) := by
  refine ⟨dedupeByUrlAux_pairwise _ [], ?_, ?_⟩
  · intro inst hinst
    have hmem : inst ∈ (PORTS.map (fun p => checkPortAll (fetch p) p)).flatten :=
      dedupeByUrlAux_subset _ [] inst hinst
    rcases List.mem_flatten.mp hmem with ⟨lst, hlst, hin⟩
    rcases List.mem_map.mp hlst with ⟨p, hp, rfl⟩
    have hport := checkPortAll_port (fetch p) p inst hin
    rw [hport]
    exact ⟨hp, hin⟩
  · intro p hp c hc
    have hmem : c ∈ (PORTS.map (fun p => checkPortAll (fetch p) p)).flatten :=
      List.mem_flatten.mpr ⟨checkPortAll (fetch p) p, List.mem_map.mpr ⟨p, hp, rfl⟩, hc⟩
    rcases dedupeByUrlAux_covers _ [] c hmem with h | h
    · simp at h
    · exact h

/-- Witness: on the duplicated-id input, the first returned instance is
annotated with the port it was found on and belongs to that port's probe
result. -/
theorem discoverAll_dedup_by_url_witness :
    ({ id := "X", port := 9000, url := "ws://127.0.0.1:9000/devtools/page/X",
       title := "Target X", pageUrl := some "workbench.html" } : InstanceInfo).port
        ∈ PORTS ∧
    ({ id := "X", port := 9000, url := "ws://127.0.0.1:9000/devtools/page/X",
       title := "Target X", pageUrl := some "workbench.html" } : InstanceInfo)
        ∈ checkPortAll (fetchDup 9000) 9000 :=
  (discoverAll_dedup_by_url fetchDup).2.1
    { id := "X", port := 9000, url := "ws://127.0.0.1:9000/devtools/page/X",
      title := "Target X", pageUrl := some "workbench.html" } (by decide)

/-- C6: switching the active instance, on a resolvable target id: the
handler closes the existing transport exactly when one is present — a
caught no-op (never an error) otherwise — strictly before opening the
new one, discards the stale payload and fingerprint, installs the new
session and target id, resets both the capture-failure counter and the
retry counter to zero, and a status query after completion reports
precisely the new session's context count, never a mixture with the old
session; a failed connect is caught as a 500 response and leaves the
system disconnected. -/
theorem switch_instance_correct
    (st : ServerState) (targetId : String) (rediscover : List InstanceInfo)
    (sess : Session) (target : InstanceInfo) (e : String)
    (hid : targetId ≠ "")
    (hfind : (effectiveInstances st rediscover).find? (fun i => i.id == targetId) =
      some target) :
    (switchInstance st targetId rediscover (.ok sess)).2.1 =
      .ok target.id target.title ∧
    (switchInstance st targetId rediscover (.ok sess)).1.cdpConnection = some sess ∧
    (switchInstance st targetId rediscover (.ok sess)).1.snapshotFailCount = 0 ∧
    (switchInstance st targetId rediscover (.ok sess)).1.cdpRetryCount = 0 ∧
    (switchInstance st targetId rediscover (.ok sess)).1.activeTargetId =
      some target.id ∧
    (switchInstance st targetId rediscover (.ok sess)).1.lastSnapshot = none ∧
    (switchInstance st targetId rediscover (.ok sess)).1.lastSnapshotHash = none ∧
    getCDPStatus (switchInstance st targetId rediscover (.ok sess)).1 =
      { connected := true, contextCount := sess.contexts.length, retryCount := 0 } ∧
    (switchInstance st targetId rediscover (.ok sess)).2.2 =
      (if st.cdpConnection.isSome then [SwitchAction.closeTransport] else []) ++
        [SwitchAction.openTransport] ∧
    (switchInstance st targetId rediscover (.error e)).1.cdpConnection = none ∧
    (switchInstance st targetId rediscover (.error e)).2.1 = .serverError e := by
  refine ⟨?_, ?_, ?_, ?_, ?_, ?_, ?_, ?_, ?_, ?_, ?_⟩ <;>
    simp [switchInstance, hid, hfind, getCDPStatus]

/-- Witness: scenario D — switching to instance B while session A is
connected closes transport A before opening transport B, installs
session B, and the status afterwards reports B's context count. -/
theorem switch_instance_correct_witness :
    (switchInstance stSwitchW "B" [] (.ok sessB)).2.1 = .ok "B" "Antigravity B" ∧
    (switchInstance stSwitchW "B" [] (.ok sessB)).1.cdpConnection = some sessB ∧
    getCDPStatus (switchInstance stSwitchW "B" [] (.ok sessB)).1 =
      { connected := true, contextCount := 2, retryCount := 0 } ∧
    (switchInstance stSwitchW "B" [] (.ok sessB)).2.2 =
      [SwitchAction.closeTransport, SwitchAction.openTransport] ∧
    (switchInstance stSwitchW "B" [] (.error "boom")).1.cdpConnection = none := by
  have h := switch_instance_correct stSwitchW "B" [] sessB instB "boom"
    (by decide) (by decide)
  exact ⟨h.1, h.2.1, h.2.2.2.2.2.2.2.1, h.2.2.2.2.2.2.2.2.1, h.2.2.2.2.2.2.2.2.2.1⟩

end AgentG
